import Mathlib

/-!
Verification of `backend/apps/core/metrics.py` from the careplan repository.

The module declares a fixed registry of Prometheus instruments (counters,
gauges, histograms, one info record), a static LLM pricing table, and two
helpers: `record_llm_cost` and `init_app_info`.

Modelling choices:
* Dollar amounts, durations and bucket bounds are embedded as rationals
  (`ℚ`): the Python source manipulates decimal literals and true division,
  and the specification's examples are exact decimal identities
  (e.g. `0.003 + 0.0075 = 0.0105`); IEEE rounding is abstracted away.
* Token counts are integers (`ℤ`), since the source accepts any `int`,
  including negative ones.
* The prometheus_client instrument operations (`Counter.inc`,
  `Histogram.observe`, `Info.info`) are an external library, not part of
  this repository; their semantics are modelled from the spec (§4.1).
-/

namespace Careplan.Metrics

/-- The four instrument kinds used by the module (`Counter`, `Gauge`,
`Histogram`, `Info` from prometheus_client). -/
inductive MetricKind where
  | counter
  | gauge
  | histogram
  | info
  deriving DecidableEq, BEq, Repr

/-- One instrument declaration: metric name, kind, ordered label names, and
(for histograms) the ascending bucket upper bounds. Non-histograms carry an
empty bucket list. Help text is omitted: no claim concerns it. -/
structure Instrument where
  name : String
  kind : MetricKind
  labelNames : List String
  buckets : List ℚ
  deriving DecidableEq, Repr

/-- `APP_INFO = Info("careplan_app", ...)`. -/
def APP_INFO : Instrument :=
  { name := "careplan_app", kind := .info, labelNames := [], buckets := [] }

/-- `ORDER_CREATED_TOTAL = Counter("careplan_order_created_total", ..., ["status"])`. -/
def ORDER_CREATED_TOTAL : Instrument :=
  { name := "careplan_order_created_total", kind := .counter,
    labelNames := ["status"], buckets := [] }

/-- `ORDER_CREATE_DURATION_SECONDS = Histogram(..., buckets=[0.05, ..., 10.0])`. -/
def ORDER_CREATE_DURATION_SECONDS : Instrument :=
  { name := "careplan_order_create_duration_seconds", kind := .histogram,
    labelNames := [],
    buckets := [0.05, 0.1, 0.25, 0.5, 1.0, 2.5, 5.0, 10.0] }

/-- `DUPLICATE_DETECTION_TOTAL = Counter(..., ["entity_type", "result"])`. -/
def DUPLICATE_DETECTION_TOTAL : Instrument :=
  { name := "careplan_duplicate_detection_total", kind := .counter,
    labelNames := ["entity_type", "result"], buckets := [] }

/-- `CARE_PLAN_GENERATION_TOTAL = Counter("careplan_generation_total", ..., ["status"])`. -/
def CARE_PLAN_GENERATION_TOTAL : Instrument :=
  { name := "careplan_generation_total", kind := .counter,
    labelNames := ["status"], buckets := [] }

/-- `CARE_PLAN_GENERATION_DURATION_SECONDS = Histogram(..., buckets=[1.0, ..., 120.0])`. -/
def CARE_PLAN_GENERATION_DURATION_SECONDS : Instrument :=
  { name := "careplan_generation_duration_seconds", kind := .histogram,
    labelNames := [],
    buckets := [1.0, 2.5, 5.0, 10.0, 20.0, 30.0, 60.0, 120.0] }

/-- `CARE_PLAN_QUEUE_SIZE = Gauge("careplan_queue_size", ...)`. -/
def CARE_PLAN_QUEUE_SIZE : Instrument :=
  { name := "careplan_queue_size", kind := .gauge, labelNames := [], buckets := [] }

/-- `CARE_PLAN_QUEUED_TOTAL = Counter("careplan_queued_total", ..., ["status"])`. -/
def CARE_PLAN_QUEUED_TOTAL : Instrument :=
  { name := "careplan_queued_total", kind := .counter,
    labelNames := ["status"], buckets := [] }

/-- `CARE_PLAN_RETRY_TOTAL = Counter("careplan_retry_total", ...)`. -/
def CARE_PLAN_RETRY_TOTAL : Instrument :=
  { name := "careplan_retry_total", kind := .counter, labelNames := [], buckets := [] }

/-- `LLM_REQUEST_TOTAL = Counter(..., ["provider", "status"])`. -/
def LLM_REQUEST_TOTAL : Instrument :=
  { name := "careplan_llm_request_total", kind := .counter,
    labelNames := ["provider", "status"], buckets := [] }

/-- `LLM_REQUEST_DURATION_SECONDS = Histogram(..., ["provider"], buckets=[0.5, ..., 60.0])`. -/
def LLM_REQUEST_DURATION_SECONDS : Instrument :=
  { name := "careplan_llm_request_duration_seconds", kind := .histogram,
    labelNames := ["provider"],
    buckets := [0.5, 1.0, 2.5, 5.0, 10.0, 20.0, 30.0, 60.0] }

/-- `LLM_TOKENS_USED_TOTAL = Counter("careplan_llm_tokens_total", ..., ["provider", "token_type"])`. -/
def LLM_TOKENS_USED_TOTAL : Instrument :=
  { name := "careplan_llm_tokens_total", kind := .counter,
    labelNames := ["provider", "token_type"], buckets := [] }

/-- `LLM_COST_DOLLARS_TOTAL = Counter("careplan_llm_cost_dollars_total", ..., ["provider", "model"])`. -/
def LLM_COST_DOLLARS_TOTAL : Instrument :=
  { name := "careplan_llm_cost_dollars_total", kind := .counter,
    labelNames := ["provider", "model"], buckets := [] }

/-- `API_REQUEST_TOTAL = Counter(..., ["method", "endpoint", "status_code"])`. -/
def API_REQUEST_TOTAL : Instrument :=
  { name := "careplan_api_request_total", kind := .counter,
    labelNames := ["method", "endpoint", "status_code"], buckets := [] }

/-- `API_REQUEST_DURATION_SECONDS = Histogram(..., ["method", "endpoint"], buckets=[0.01, ..., 5.0])`. -/
def API_REQUEST_DURATION_SECONDS : Instrument :=
  { name := "careplan_api_request_duration_seconds", kind := .histogram,
    labelNames := ["method", "endpoint"],
    buckets := [0.01, 0.025, 0.05, 0.1, 0.25, 0.5, 1.0, 2.5, 5.0] }

/-- `API_ERRORS_TOTAL = Counter(..., ["method", "endpoint", "error_type"])`. -/
def API_ERRORS_TOTAL : Instrument :=
  { name := "careplan_api_errors_total", kind := .counter,
    labelNames := ["method", "endpoint", "error_type"], buckets := [] }

/-- `DB_QUERY_DURATION_SECONDS = Histogram(..., ["operation"], buckets=[0.001, ..., 0.5])`. -/
def DB_QUERY_DURATION_SECONDS : Instrument :=
  { name := "careplan_db_query_duration_seconds", kind := .histogram,
    labelNames := ["operation"],
    buckets := [0.001, 0.005, 0.01, 0.025, 0.05, 0.1, 0.25, 0.5] }

/-- `CARE_PLAN_SUCCESS_RATE = Gauge("careplan_success_rate", ...)`. -/
def CARE_PLAN_SUCCESS_RATE : Instrument :=
  { name := "careplan_success_rate", kind := .gauge, labelNames := [], buckets := [] }

/-- `CARE_PLAN_P95_LATENCY_SECONDS = Gauge("careplan_p95_latency_seconds", ...)`. -/
def CARE_PLAN_P95_LATENCY_SECONDS : Instrument :=
  { name := "careplan_p95_latency_seconds", kind := .gauge,
    labelNames := [], buckets := [] }

/-- All module-level instrument definitions of `metrics.py`, in source order. -/
def registry : List Instrument :=
  [APP_INFO, ORDER_CREATED_TOTAL, ORDER_CREATE_DURATION_SECONDS,
   DUPLICATE_DETECTION_TOTAL, CARE_PLAN_GENERATION_TOTAL,
   CARE_PLAN_GENERATION_DURATION_SECONDS, CARE_PLAN_QUEUE_SIZE,
   CARE_PLAN_QUEUED_TOTAL, CARE_PLAN_RETRY_TOTAL, LLM_REQUEST_TOTAL,
   LLM_REQUEST_DURATION_SECONDS, LLM_TOKENS_USED_TOTAL, LLM_COST_DOLLARS_TOTAL,
   API_REQUEST_TOTAL, API_REQUEST_DURATION_SECONDS, API_ERRORS_TOTAL,
   DB_QUERY_DURATION_SECONDS, CARE_PLAN_SUCCESS_RATE,
   CARE_PLAN_P95_LATENCY_SECONDS]

/-- The instrument table of spec §4.1, transcribed row by row from the
spec's words (name, kind, labels, buckets) for refinement comparison with
`registry`, which is transcribed from the source. -/
def specTable : List Instrument :=
  [{ name := "careplan_app", kind := .info, labelNames := [], buckets := [] },
   { name := "careplan_order_created_total", kind := .counter,
     labelNames := ["status"], buckets := [] },
   { name := "careplan_order_create_duration_seconds", kind := .histogram,
     labelNames := [], buckets := [0.05, 0.1, 0.25, 0.5, 1.0, 2.5, 5.0, 10.0] },
   { name := "careplan_duplicate_detection_total", kind := .counter,
     labelNames := ["entity_type", "result"], buckets := [] },
   { name := "careplan_generation_total", kind := .counter,
     labelNames := ["status"], buckets := [] },
   { name := "careplan_generation_duration_seconds", kind := .histogram,
     labelNames := [], buckets := [1.0, 2.5, 5.0, 10.0, 20.0, 30.0, 60.0, 120.0] },
   { name := "careplan_queue_size", kind := .gauge, labelNames := [], buckets := [] },
   { name := "careplan_queued_total", kind := .counter,
     labelNames := ["status"], buckets := [] },
   { name := "careplan_retry_total", kind := .counter, labelNames := [], buckets := [] },
   { name := "careplan_llm_request_total", kind := .counter,
     labelNames := ["provider", "status"], buckets := [] },
   { name := "careplan_llm_request_duration_seconds", kind := .histogram,
     labelNames := ["provider"],
     buckets := [0.5, 1.0, 2.5, 5.0, 10.0, 20.0, 30.0, 60.0] },
   { name := "careplan_llm_tokens_total", kind := .counter,
     labelNames := ["provider", "token_type"], buckets := [] },
   { name := "careplan_llm_cost_dollars_total", kind := .counter,
     labelNames := ["provider", "model"], buckets := [] },
   { name := "careplan_api_request_total", kind := .counter,
     labelNames := ["method", "endpoint", "status_code"], buckets := [] },
   { name := "careplan_api_request_duration_seconds", kind := .histogram,
     labelNames := ["method", "endpoint"],
     buckets := [0.01, 0.025, 0.05, 0.1, 0.25, 0.5, 1.0, 2.5, 5.0] },
   { name := "careplan_api_errors_total", kind := .counter,
     labelNames := ["method", "endpoint", "error_type"], buckets := [] },
   { name := "careplan_db_query_duration_seconds", kind := .histogram,
     labelNames := ["operation"],
     buckets := [0.001, 0.005, 0.01, 0.025, 0.05, 0.1, 0.25, 0.5] },
   { name := "careplan_success_rate", kind := .gauge, labelNames := [], buckets := [] },
   { name := "careplan_p95_latency_seconds", kind := .gauge,
     labelNames := [], buckets := [] }]

/-- A label vector: concrete string values for an instrument's declared
label names, in declaration order. -/
abbrev LabelVec := List String

/-- Modelled from the spec: per-label-vector state of one histogram series
(prometheus_client's `Histogram` internals are an external library, absent
from the repository). `counts` maps a bucket upper bound to that bucket's
cumulative counter; `count` is the total observation count (the implicit
`+Infinity` bucket); `sum` is the running sum of observed values. -/
structure HistState where
  counts : ℚ → ℕ
  count : ℕ
  sum : ℚ

/-- A fresh histogram series: all bucket counters 0, count 0, sum 0. -/
def HistState.empty : HistState :=
  { counts := fun _ => 0, count := 0, sum := 0 }

/-- Modelled from the spec (§4.1 `Histogram.observe`): increments every
bucket counter whose bound is ≥ value, increments total count, adds value
to the running sum. -/
def HistState.observe (v : ℚ) (s : HistState) : HistState :=
  { counts := fun b => if v ≤ b then s.counts b + 1 else s.counts b,
    count := s.count + 1,
    sum := s.sum + v }

/-- Observe a sequence of values, in order. -/
def HistState.observeList (vs : List ℚ) (s : HistState) : HistState :=
  vs.foldl (fun t v => t.observe v) s

/-- The mutable state of the process-wide metrics registry: one numeric
accumulator per (counter name, label vector), one value per (gauge name,
label vector), one `HistState` per (histogram name, label vector), and the
`careplan_app` info record. Accumulators absent so far read as their
initial value (lazy creation with value 0). -/
structure MetricsState where
  counters : String → LabelVec → ℚ
  gauges : String → LabelVec → ℚ
  hists : String → LabelVec → HistState
  appInfo : List (String × String)

/-- The state at process start: every accumulator at its initial value and
no info record published yet. -/
def MetricsState.init : MetricsState :=
  { counters := fun _ _ => 0, gauges := fun _ _ => 0,
    hists := fun _ _ => HistState.empty, appInfo := [] }

/-- Modelled from the spec (§4.1 `Counter.increment`): adds `amount` to the
accumulator keyed by (counter name, label vector), leaving every other
series untouched. -/
def counterInc (n : String) (lv : LabelVec) (amount : ℚ) (s : MetricsState) :
    MetricsState :=
  { s with counters := fun n₂ lv₂ =>
      if n₂ = n ∧ lv₂ = lv then s.counters n₂ lv₂ + amount else s.counters n₂ lv₂ }

/-- `LLM_PRICING`: the static pricing table, dollars per 1K tokens, as the
association list of `metrics.py` (model ↦ (input rate, output rate)). -/
def LLM_PRICING : List (String × ℚ × ℚ) :=
  [("claude-sonnet-4-20250514", (0.003, 0.015)),
   ("claude-3-5-sonnet-20241022", (0.003, 0.015)),
   ("claude-3-opus-20240229", (0.015, 0.075)),
   ("gpt-4o", (0.005, 0.015)),
   ("gpt-4o-mini", (0.00015, 0.0006)),
   ("gpt-4-turbo", (0.01, 0.03))]

/-- `LLM_PRICING.get(model, {"input": 0.01, "output": 0.03})`: table lookup
with the default pricing fallback. -/
def pricingFor (model : String) : ℚ × ℚ :=
  (List.lookup model LLM_PRICING).getD (0.01, 0.03)

/-- `record_llm_cost(provider, model, prompt_tokens, completion_tokens)`:
computes `cost = prompt_tokens/1000 * input_rate + completion_tokens/1000
* output_rate` and adds it to `careplan_llm_cost_dollars_total` under
labels `(provider, model)`. Returns the updated state (the Python function
returns `None`; its whole effect is this update). -/
def record_llm_cost (provider model : String)
    (prompt_tokens completion_tokens : ℤ) (s : MetricsState) : MetricsState :=
  let pricing := pricingFor model
  let cost : ℚ :=
    (prompt_tokens : ℚ) / 1000 * pricing.1 + (completion_tokens : ℚ) / 1000 * pricing.2
  counterInc LLM_COST_DOLLARS_TOTAL.name [provider, model] cost s

/-- `init_app_info(version, environment)`: sets the `careplan_app` info
record to exactly `{version, environment}`, replacing any prior value
(prometheus_client's `Info.info` replaces the whole record; modelled from
the spec §4.3). -/
def init_app_info (version environment : String) (s : MetricsState) :
    MetricsState :=
  { s with appInfo := [("version", version), ("environment", environment)] }

/-! ## Helper lemmas (shared across claims) -/

/-- Incrementing a counter adds exactly `amount` to the targeted series. -/
lemma counterInc_self (n : String) (lv : LabelVec) (a : ℚ) (s : MetricsState) :
    (counterInc n lv a s).counters n lv = s.counters n lv + a := by
  simp [counterInc]

/-- `record_llm_cost` adds exactly the computed cost to the
`careplan_llm_cost_dollars_total` series for `(provider, model)`. -/
lemma record_llm_cost_delta (provider model : String) (pt ct : ℤ)
    (s : MetricsState) :
    (record_llm_cost provider model pt ct s).counters
        LLM_COST_DOLLARS_TOTAL.name [provider, model]
      = s.counters LLM_COST_DOLLARS_TOTAL.name [provider, model]
        + ((pt : ℚ) / 1000 * (pricingFor model).1
           + (ct : ℚ) / 1000 * (pricingFor model).2) := by
  simp [record_llm_cost, counterInc]

/-- Every rate in the pricing table, and the default rate, is positive, in
both components. -/
lemma pricingFor_pos (model : String) :
    0 < (pricingFor model).1 ∧ 0 < (pricingFor model).2 := by
  have key : ∀ l : List (String × ℚ × ℚ), (∀ e ∈ l, 0 < e.2.1 ∧ 0 < e.2.2) →
      ∀ pr : ℚ × ℚ, List.lookup model l = some pr → 0 < pr.1 ∧ 0 < pr.2 := by
    intro l
    induction l with
    | nil => intro _ pr h; simp at h
    | cons e t ih =>
      intro hall pr h
      obtain ⟨k, v⟩ := e
      rcases hme : model == k with _ | _ <;> rw [List.lookup_cons, hme] at h
      · exact ih (fun e he => hall e (List.mem_cons_of_mem _ he)) pr h
      · have hpr : v = pr := by simpa using h
        rw [← hpr]
        exact hall (k, v) (by simp)
  unfold pricingFor
  cases h : List.lookup model LLM_PRICING with
  | none => norm_num
  | some pr =>
    have := key LLM_PRICING ?_ pr h
    · simpa using this
    · intro e he
      unfold LLM_PRICING at he
      fin_cases he <;> norm_num

/-! ## Claim theorems -/

/-- C1: for a model present in the pricing table, `record_llm_cost`
computes `cost = prompt_tokens/1000 * input_rate + completion_tokens/1000
* output_rate` and adds exactly that amount to the
`careplan_llm_cost_dollars_total` accumulator for `(provider, model)`; in
particular `record_llm_cost("claude", "claude-sonnet-4-20250514", 1000,
500)` increases the corresponding accumulator by exactly `0.0105`. -/
theorem record_llm_cost_table_rate :
    (∀ (s : MetricsState) (p m : String) (pt ct : ℤ) (ir orate : ℚ),
      List.lookup m LLM_PRICING = some (ir, orate) →
      (record_llm_cost p m pt ct s).counters LLM_COST_DOLLARS_TOTAL.name [p, m]
        = s.counters LLM_COST_DOLLARS_TOTAL.name [p, m]
          + ((pt : ℚ) / 1000 * ir + (ct : ℚ) / 1000 * orate)) ∧
    ∀ s : MetricsState,
      (record_llm_cost "claude" "claude-sonnet-4-20250514" 1000 500 s).counters
          LLM_COST_DOLLARS_TOTAL.name ["claude", "claude-sonnet-4-20250514"]
        = s.counters LLM_COST_DOLLARS_TOTAL.name
            ["claude", "claude-sonnet-4-20250514"] + 0.0105 := by
  constructor
  · intro s p m pt ct ir orate h
    rw [record_llm_cost_delta]
    simp [pricingFor, h]
  · intro s
    rw [record_llm_cost_delta]
    have h : pricingFor "claude-sonnet-4-20250514" = (0.003, 0.015) := rfl
    rw [h]
    norm_num

/-- Witness for C1: the spec's own example, evaluated concretely. -/
theorem record_llm_cost_table_rate_witness :
    (record_llm_cost "claude" "claude-sonnet-4-20250514" 1000 500
        MetricsState.init).counters
        LLM_COST_DOLLARS_TOTAL.name ["claude", "claude-sonnet-4-20250514"]
      = MetricsState.init.counters LLM_COST_DOLLARS_TOTAL.name
          ["claude", "claude-sonnet-4-20250514"]
        + ((1000 : ℚ) / 1000 * 0.003 + (500 : ℚ) / 1000 * 0.015) :=
  record_llm_cost_table_rate.1 MetricsState.init "claude"
    "claude-sonnet-4-20250514" 1000 500 0.003 0.015 rfl

/-- C2: for every model name absent from the pricing table,
`record_llm_cost` uses the default rates `(0.01, 0.03)` dollars per 1000
tokens; in particular `record_llm_cost("x", "unknown-model", 2000, 1000)`
adds exactly `0.05` to the `(x, unknown-model)` accumulator. -/
theorem record_llm_cost_default_rate :
    (∀ (s : MetricsState) (p m : String) (pt ct : ℤ),
      List.lookup m LLM_PRICING = none →
      (record_llm_cost p m pt ct s).counters LLM_COST_DOLLARS_TOTAL.name [p, m]
        = s.counters LLM_COST_DOLLARS_TOTAL.name [p, m]
          + ((pt : ℚ) / 1000 * 0.01 + (ct : ℚ) / 1000 * 0.03)) ∧
    List.lookup "unknown-model" LLM_PRICING = none ∧
    ∀ s : MetricsState,
      (record_llm_cost "x" "unknown-model" 2000 1000 s).counters
          LLM_COST_DOLLARS_TOTAL.name ["x", "unknown-model"]
        = s.counters LLM_COST_DOLLARS_TOTAL.name ["x", "unknown-model"]
          + 0.05 := by
  refine ⟨?_, rfl, ?_⟩
  · intro s p m pt ct h
    rw [record_llm_cost_delta]
    simp [pricingFor, h]
  · intro s
    rw [record_llm_cost_delta]
    have h : pricingFor "unknown-model" = (0.01, 0.03) := rfl
    rw [h]
    norm_num

/-- Witness for C2: the spec's own example with the unknown model,
evaluated concretely. -/
theorem record_llm_cost_default_rate_witness :
    (record_llm_cost "x" "unknown-model" 2000 1000
        MetricsState.init).counters
        LLM_COST_DOLLARS_TOTAL.name ["x", "unknown-model"]
      = MetricsState.init.counters LLM_COST_DOLLARS_TOTAL.name
          ["x", "unknown-model"]
        + ((2000 : ℚ) / 1000 * 0.01 + (1000 : ℚ) / 1000 * 0.03) :=
  record_llm_cost_default_rate.1 MetricsState.init "x" "unknown-model"
    2000 1000 rfl

/-- C3: `record_llm_cost` and `init_app_info` have no error path: they are
total state transformers (every input, including negative token counts,
yields a defined successor state), and negative token counts produce a
strictly negative cost contribution, decreasing the targeted counter
series instead of crashing. -/
theorem record_llm_cost_no_error :
    (∀ (s : MetricsState) (p m : String) (pt ct : ℤ),
      pt ≤ 0 → ct ≤ 0 → pt + ct < 0 →
      (record_llm_cost p m pt ct s).counters LLM_COST_DOLLARS_TOTAL.name [p, m]
        < s.counters LLM_COST_DOLLARS_TOTAL.name [p, m]) ∧
    ∀ (s : MetricsState) (v e : String),
      (init_app_info v e s).appInfo = [("version", v), ("environment", e)] := by
  constructor
  · intro s p m pt ct hpt hct hsum
    rw [record_llm_cost_delta]
    obtain ⟨hin, hout⟩ := pricingFor_pos m
    have hptq : (pt : ℚ) ≤ 0 := by exact_mod_cast hpt
    have hctq : (ct : ℚ) ≤ 0 := by exact_mod_cast hct
    have hneg : (pt : ℚ) < 0 ∨ (ct : ℚ) < 0 := by
      rcases lt_or_le pt 0 with h | h
      · exact Or.inl (by exact_mod_cast h)
      · have hpt0 : pt = 0 := le_antisymm hpt h
        refine Or.inr ?_
        have : ct < 0 := by omega
        exact_mod_cast this
    have hcost : (pt : ℚ) / 1000 * (pricingFor m).1
        + (ct : ℚ) / 1000 * (pricingFor m).2 < 0 := by
      rcases hneg with h | h
      · have h1 : (pt : ℚ) / 1000 * (pricingFor m).1 < 0 :=
          mul_neg_of_neg_of_pos (by linarith) hin
        have h2 : (ct : ℚ) / 1000 * (pricingFor m).2 ≤ 0 :=
          mul_nonpos_of_nonpos_of_nonneg (by linarith) (le_of_lt hout)
        linarith
      · have h1 : (pt : ℚ) / 1000 * (pricingFor m).1 ≤ 0 :=
          mul_nonpos_of_nonpos_of_nonneg (by linarith) (le_of_lt hin)
        have h2 : (ct : ℚ) / 1000 * (pricingFor m).2 < 0 :=
          mul_neg_of_neg_of_pos (by linarith) hout
        linarith
    linarith
  · intro s v e
    rfl

/-- Witness for C3: with `-1000` prompt tokens and `-500` completion
tokens the claude-sonnet cost contribution is strictly negative, and
`init_app_info` publishes its record, both evaluated concretely. -/
theorem record_llm_cost_no_error_witness :
    (record_llm_cost "claude" "claude-sonnet-4-20250514" (-1000) (-500)
        MetricsState.init).counters
        LLM_COST_DOLLARS_TOTAL.name ["claude", "claude-sonnet-4-20250514"]
      < MetricsState.init.counters LLM_COST_DOLLARS_TOTAL.name
          ["claude", "claude-sonnet-4-20250514"] :=
  record_llm_cost_no_error.1 MetricsState.init "claude"
    "claude-sonnet-4-20250514" (-1000) (-500) (by norm_num) (by norm_num)
    (by norm_num)

/-- C5: `init_app_info` is last-write-wins and never errors: after any two
calls the `careplan_app` record equals exactly the key/value mapping of
the second call's arguments; in particular `init_app_info("1.2.3",
"prod")` then `init_app_info("1.2.4", "staging")` leaves it equal to
`{version: "1.2.4", environment: "staging"}`. -/
theorem init_app_info_last_write_wins :
    (∀ (s : MetricsState) (v₁ e₁ v₂ e₂ : String),
      (init_app_info v₂ e₂ (init_app_info v₁ e₁ s)).appInfo
        = [("version", v₂), ("environment", e₂)]) ∧
    ∀ s : MetricsState,
      (init_app_info "1.2.4" "staging" (init_app_info "1.2.3" "prod" s)).appInfo
        = [("version", "1.2.4"), ("environment", "staging")] :=
  ⟨fun _ _ _ _ _ => rfl, fun _ => rfl⟩

/-- C8: the only effect of `record_llm_cost` is on the
`careplan_llm_cost_dollars_total` counter under the label vector
`(provider, model)`: the gauges, histograms, the info record, and every
other counter series are all unchanged by a call. -/
theorem record_llm_cost_frame :
    ∀ (s : MetricsState) (p m : String) (pt ct : ℤ),
      (record_llm_cost p m pt ct s).gauges = s.gauges ∧
      (record_llm_cost p m pt ct s).hists = s.hists ∧
      (record_llm_cost p m pt ct s).appInfo = s.appInfo ∧
      ∀ (n : String) (lv : LabelVec),
        ¬(n = LLM_COST_DOLLARS_TOTAL.name ∧ lv = [p, m]) →
        (record_llm_cost p m pt ct s).counters n lv = s.counters n lv := by
  intro s p m pt ct
  refine ⟨rfl, rfl, rfl, ?_⟩
  intro n lv h
  simp only [record_llm_cost, counterInc]
  rw [if_neg h]

/-- Witness for C8: a call touching `(claude, gpt-4o)` leaves the
`careplan_retry_total` series at its initial value. -/
theorem record_llm_cost_frame_witness :
    (record_llm_cost "claude" "gpt-4o" 1000 500 MetricsState.init).counters
        "careplan_retry_total" []
      = MetricsState.init.counters "careplan_retry_total" [] :=
  (record_llm_cost_frame MetricsState.init "claude" "gpt-4o" 1000 500).2.2.2
    "careplan_retry_total" [] (by simp [LLM_COST_DOLLARS_TOTAL])

/-- C9: `record_llm_cost` with model `gpt-4-turbo` adds exactly the same
amount to its accumulator as a call with any model absent from the pricing
table, because the `gpt-4-turbo` table entry `(0.01, 0.03)` equals the
fallback default. -/
theorem gpt4turbo_rate_eq_default :
    pricingFor "gpt-4-turbo" = (0.01, 0.03) ∧
    ∀ (s : MetricsState) (p m : String) (pt ct : ℤ),
      List.lookup m LLM_PRICING = none →
      (record_llm_cost p "gpt-4-turbo" pt ct s).counters
          LLM_COST_DOLLARS_TOTAL.name [p, "gpt-4-turbo"]
        - s.counters LLM_COST_DOLLARS_TOTAL.name [p, "gpt-4-turbo"]
      = (record_llm_cost p m pt ct s).counters
          LLM_COST_DOLLARS_TOTAL.name [p, m]
        - s.counters LLM_COST_DOLLARS_TOTAL.name [p, m] := by
  refine ⟨rfl, ?_⟩
  intro s p m pt ct h
  rw [record_llm_cost_delta, record_llm_cost_delta]
  have hm : pricingFor m = (0.01, 0.03) := by simp [pricingFor, h]
  have ht : pricingFor "gpt-4-turbo" = (0.01, 0.03) := rfl
  rw [hm, ht]
  ring

/-- Witness for C9: with provider `claude` and 1000/500 tokens, the
`gpt-4-turbo` delta equals the `unknown-model` delta. -/
theorem gpt4turbo_rate_eq_default_witness :
    (record_llm_cost "claude" "gpt-4-turbo" 1000 500
          MetricsState.init).counters
        LLM_COST_DOLLARS_TOTAL.name ["claude", "gpt-4-turbo"]
      - MetricsState.init.counters LLM_COST_DOLLARS_TOTAL.name
          ["claude", "gpt-4-turbo"]
    = (record_llm_cost "claude" "unknown-model" 1000 500
          MetricsState.init).counters
        LLM_COST_DOLLARS_TOTAL.name ["claude", "unknown-model"]
      - MetricsState.init.counters LLM_COST_DOLLARS_TOTAL.name
          ["claude", "unknown-model"] :=
  gpt4turbo_rate_eq_default.2 MetricsState.init "claude" "unknown-model"
    1000 500 rfl

/-- C10: for every provider and model, `record_llm_cost(provider, model,
0, 0)` computes cost `0` and leaves every counter accumulator — in
particular the `(provider, model)` series of
`careplan_llm_cost_dollars_total` — numerically unchanged. -/
theorem record_llm_cost_zero_tokens :
    ∀ (s : MetricsState) (p m : String),
      (record_llm_cost p m 0 0 s).counters LLM_COST_DOLLARS_TOTAL.name [p, m]
        = s.counters LLM_COST_DOLLARS_TOTAL.name [p, m] ∧
      (record_llm_cost p m 0 0 s).counters = s.counters := by
  intro s p m
  have hall : (record_llm_cost p m 0 0 s).counters = s.counters := by
    funext n lv
    simp only [record_llm_cost, counterInc]
    split <;> simp
  exact ⟨by rw [hall], hall⟩

/-- Counterexample for C4: the claim speaks of "the six histograms", but
the registry (like the spec's own table) declares exactly five
histograms, not six. -/
theorem registry_not_six_histograms :
    (registry.filter fun i => i.kind == MetricKind.histogram).length = 5 ∧
    (registry.filter fun i => i.kind == MetricKind.histogram).length ≠ 6 := by
  constructor <;> decide

/-- C4 (amended): the registry declares exactly the 19 instruments of the
spec's table — bit-exact names, stated kinds, stated ordered label names,
and, for each of the five histograms, exactly the stated strictly
ascending bucket boundaries — and all 19 names are distinct. -/
theorem registry_matches_spec_table :
    registry = specTable ∧
    (registry.map Instrument.name).Nodup ∧
    (registry.filter fun i => i.kind == MetricKind.histogram).map Instrument.name
      = ["careplan_order_create_duration_seconds",
         "careplan_generation_duration_seconds",
         "careplan_llm_request_duration_seconds",
         "careplan_api_request_duration_seconds",
         "careplan_db_query_duration_seconds"] ∧
    List.Chain' (fun a b => a < b) ORDER_CREATE_DURATION_SECONDS.buckets ∧
    List.Chain' (fun a b => a < b) CARE_PLAN_GENERATION_DURATION_SECONDS.buckets ∧
    List.Chain' (fun a b => a < b) LLM_REQUEST_DURATION_SECONDS.buckets ∧
    List.Chain' (fun a b => a < b) API_REQUEST_DURATION_SECONDS.buckets ∧
    List.Chain' (fun a b => a < b) DB_QUERY_DURATION_SECONDS.buckets := by
  refine ⟨rfl, by decide, by decide, ?_, ?_, ?_, ?_, ?_⟩ <;>
    norm_num [ORDER_CREATE_DURATION_SECONDS,
      CARE_PLAN_GENERATION_DURATION_SECONDS, LLM_REQUEST_DURATION_SECONDS,
      API_REQUEST_DURATION_SECONDS, DB_QUERY_DURATION_SECONDS,
      List.chain'_cons]

/-- After observing a sequence, a bucket's counter grew by the number of
observed values at or below its bound. -/
lemma observeList_counts (vs : List ℚ) (s : HistState) (b : ℚ) :
    (HistState.observeList vs s).counts b
      = s.counts b + (vs.filter fun v => v ≤ b).length := by
  induction vs generalizing s with
  | nil => simp [HistState.observeList]
  | cons v rest ih =>
    simp only [HistState.observeList, List.foldl_cons] at ih ⊢
    rw [ih]
    by_cases h : v ≤ b
    · simp [HistState.observe, h, List.filter_cons]
      omega
    · simp [HistState.observe, h, List.filter_cons]

/-- After observing a sequence, the total count grew by its length. -/
lemma observeList_count (vs : List ℚ) (s : HistState) :
    (HistState.observeList vs s).count = s.count + vs.length := by
  induction vs generalizing s with
  | nil => simp [HistState.observeList]
  | cons v rest ih =>
    simp only [HistState.observeList, List.foldl_cons] at ih ⊢
    rw [ih]
    simp [HistState.observe]
    omega

/-- After observing a sequence, the running sum grew by its sum. -/
lemma observeList_sum (vs : List ℚ) (s : HistState) :
    (HistState.observeList vs s).sum = s.sum + vs.sum := by
  induction vs generalizing s with
  | nil => simp [HistState.observeList]
  | cons v rest ih =>
    simp only [HistState.observeList, List.foldl_cons] at ih ⊢
    rw [ih]
    simp [HistState.observe]
    ring

/-- C6: for every histogram series and every sequence of observed values
`v1..vn`, each bucket with upper bound `b` holds `count(vi ≤ b)`; these
cumulative counts are non-decreasing across ascending bounds and never
exceed the total count (the implicit `+Infinity` bucket), which equals
`n`; and the sum equals `Σ vi`. -/
theorem histogram_observe_semantics :
    ∀ (vs : List ℚ) (b b' : ℚ),
      (HistState.observeList vs HistState.empty).counts b
          = (vs.filter fun v => v ≤ b).length ∧
      (HistState.observeList vs HistState.empty).count = vs.length ∧
      (HistState.observeList vs HistState.empty).sum = vs.sum ∧
      (HistState.observeList vs HistState.empty).counts b
        ≤ (HistState.observeList vs HistState.empty).count ∧
      (b ≤ b' →
        (HistState.observeList vs HistState.empty).counts b
          ≤ (HistState.observeList vs HistState.empty).counts b') := by
  intro vs b b'
  have hcb : HistState.empty.counts b = 0 := rfl
  have hcb' : HistState.empty.counts b' = 0 := rfl
  have hcc : HistState.empty.count = 0 := rfl
  have hcs : HistState.empty.sum = 0 := rfl
  refine ⟨?_, ?_, ?_, ?_, ?_⟩
  · rw [observeList_counts, hcb, Nat.zero_add]
  · rw [observeList_count, hcc, Nat.zero_add]
  · rw [observeList_sum, hcs, zero_add]
  · rw [observeList_counts, observeList_count, hcb, hcc, Nat.zero_add,
      Nat.zero_add]
    exact List.length_filter_le _ _
  · intro hbb'
    rw [observeList_counts, observeList_counts, hcb, hcb', Nat.zero_add,
      Nat.zero_add]
    refine List.Sublist.length_le (List.monotone_filter_right vs ?_)
    intro a ha
    simp only [decide_eq_true_eq] at ha ⊢
    linarith

/-- Witness for C6: the spec's own example — observations
`[0.03, 0.2, 0.3]`, bucket `0.05` holds at most what bucket `0.1`
holds. -/
theorem histogram_observe_semantics_witness :
    (HistState.observeList [0.03, 0.2, 0.3] HistState.empty).counts 0.05
      ≤ (HistState.observeList [0.03, 0.2, 0.3] HistState.empty).counts 0.1 :=
  (histogram_observe_semantics [0.03, 0.2, 0.3] 0.05 0.1).2.2.2.2
    (by norm_num)

/-- A sequence of counter increments for one (name, label vector). -/
def counterIncList (n : String) (lv : LabelVec) (amounts : List ℚ)
    (s : MetricsState) : MetricsState :=
  amounts.foldl (fun t a => counterInc n lv a t) s

/-- C7: after `n` increments with amounts `a1..an` a counter series equals
its prior value plus `a1 + ... + an`, and never decreases when the
amounts are non-negative (the spec's `increment` contract requires
`amount ≥ 0`); in particular successive `record_llm_cost` calls with
non-negative token counts never decrease the
`careplan_llm_cost_dollars_total` series. -/
theorem counter_additive_monotone :
    (∀ (n : String) (lv : LabelVec) (s : MetricsState) (amounts : List ℚ),
      (counterIncList n lv amounts s).counters n lv
        = s.counters n lv + amounts.sum) ∧
    (∀ (n : String) (lv : LabelVec) (s : MetricsState) (amounts : List ℚ),
      (∀ a ∈ amounts, 0 ≤ a) →
      s.counters n lv ≤ (counterIncList n lv amounts s).counters n lv) ∧
    ∀ (s : MetricsState) (p m : String) (pt ct : ℤ), 0 ≤ pt → 0 ≤ ct →
      s.counters LLM_COST_DOLLARS_TOTAL.name [p, m]
        ≤ (record_llm_cost p m pt ct s).counters
            LLM_COST_DOLLARS_TOTAL.name [p, m] := by
  have hadd : ∀ (n : String) (lv : LabelVec) (amounts : List ℚ)
      (s : MetricsState),
      (counterIncList n lv amounts s).counters n lv
        = s.counters n lv + amounts.sum := by
    intro n lv amounts
    induction amounts with
    | nil => intro s; simp [counterIncList]
    | cons a rest ih =>
      intro s
      simp only [counterIncList, List.foldl_cons] at ih ⊢
      rw [ih, counterInc_self]
      simp [add_assoc]
  refine ⟨fun n lv s amounts => hadd n lv amounts s, ?_, ?_⟩
  · intro n lv s amounts hpos
    rw [hadd]
    have := List.sum_nonneg hpos
    linarith
  · intro s p m pt ct hpt hct
    rw [record_llm_cost_delta]
    obtain ⟨hin, hout⟩ := pricingFor_pos m
    have h1 : (0 : ℚ) ≤ (pt : ℚ) / 1000 * (pricingFor m).1 := by
      apply mul_nonneg _ (le_of_lt hin)
      positivity
    have h2 : (0 : ℚ) ≤ (ct : ℚ) / 1000 * (pricingFor m).2 := by
      apply mul_nonneg _ (le_of_lt hout)
      positivity
    linarith

/-- Witness for C7: three concrete increments on `careplan_retry_total`
never decrease it, and a concrete `record_llm_cost` call never decreases
the cost counter. -/
theorem counter_additive_monotone_witness :
    (MetricsState.init.counters "careplan_retry_total" []
      ≤ (counterIncList "careplan_retry_total" [] [1, 2, 0.5]
          MetricsState.init).counters "careplan_retry_total" []) ∧
    MetricsState.init.counters LLM_COST_DOLLARS_TOTAL.name
        ["claude", "gpt-4o"]
      ≤ (record_llm_cost "claude" "gpt-4o" 1000 500
          MetricsState.init).counters
          LLM_COST_DOLLARS_TOTAL.name ["claude", "gpt-4o"] :=
  ⟨counter_additive_monotone.2.1 "careplan_retry_total" [] MetricsState.init
      [1, 2, 0.5] (by intro a ha; fin_cases ha <;> norm_num),
   counter_additive_monotone.2.2 MetricsState.init "claude" "gpt-4o"
      1000 500 (by norm_num) (by norm_num)⟩

end Careplan.Metrics
